import Mathlib

/-
Verification of the core pipeline of the FiatFlow tracker (src/app.py):
multi-source market data fetching with fallback, deterministic synthetic
market data, fiat inflow generation, the scoring engine, the signal
decision table, and the rank aggregation stage of the specification.

Numeric quantities are modelled as rationals.  The numpy global random
generator is modelled as an explicit state of an abstract type, threaded
through the definitions; the draw functions (normal, uniform, randint)
and the reseed operations are supplied by a RandModel parameter, so the
theorems quantify over every deterministic generator implementation.
-/

/-- A market snapshot as built by fetch_market_data, fetch_coingecko_data
and generate_realistic_market_data in src/app.py.  The fields transcribe
the dictionary keys used at all three construction sites. -/
structure MarketSnapshot where
  price : Rat
  price_change_percent : Rat
  volume : Rat
  quote_volume : Rat
  high : Rat
  low : Rat
  trades : Int
deriving DecidableEq

/-- A fiat inflow sample as built by generate_fiat_inflow_data. -/
structure InflowSample where
  current_inflow : Rat
  avg_inflow_5min : Rat
  transactions_per_min : Int
  session_boost : Rat
deriving DecidableEq

/-- The discrete trading signal assigned by calculate_scores. -/
inductive Signal where
  | strongBuy
  | buy
  | strongSell
  | sell
  | hold
deriving DecidableEq

/-- One row of the result of calculate_scores in src/app.py (the fields
relevant to the pipeline; the display-only fields are out of scope). -/
structure ScoreRecord where
  symbol : String
  fiat_flow_score : Rat
  momentum_score : Rat
  volume_score : Rat
  combined_score : Rat
  price_change_percent : Rat
  price : Rat
  volume : Rat
  signal : Signal
deriving DecidableEq

/-- The signal decision table of calculate_scores (src/app.py lines
297-311), evaluated top to bottom, first match wins. -/
def classifySignal (momentum ffs pc : Rat) : Signal :=
  if momentum > 120 ∧ ffs > 130 ∧ pc > 2 then .strongBuy
  else if momentum > 80 ∧ ffs > 110 then .buy
  else if momentum < 60 ∧ ffs < 80 ∧ pc < -2 then .strongSell
  else if momentum < 80 ∧ ffs < 90 then .sell
  else .hold

/-- The per-symbol body of calculate_scores (src/app.py lines 269-327):
flow score with the positive-average guard, momentum score, volume
score, combined score and the classified signal. -/
def calculate_scores_row (symbol : String) (market : MarketSnapshot)
    (inflow : InflowSample) : ScoreRecord :=
  let fiat_flow_score :=
    if inflow.avg_inflow_5min > 0 then
      min (max ((inflow.current_inflow / inflow.avg_inflow_5min - 1) * 200 + 100) 0) 200
    else 100
  let price_momentum := market.price_change_percent * 2
  let volume_quot := min (market.quote_volume / 1000000) 10
  let momentum_score := fiat_flow_score * 0.6 + price_momentum * 0.3 + volume_quot * 0.1
  let volume_score := min (market.quote_volume / 50000000 * 100) 100
  let combined_score :=
    fiat_flow_score * 0.35 + momentum_score * 0.35 + volume_score * 0.2 +
      (100 + price_momentum) * 0.1
  { symbol := symbol
    fiat_flow_score := fiat_flow_score
    momentum_score := momentum_score
    volume_score := volume_score
    combined_score := combined_score
    price_change_percent := market.price_change_percent
    price := market.price
    volume := market.quote_volume
    signal := classifySignal momentum_score fiat_flow_score market.price_change_percent }

/-- Sample snapshot used to instantiate hypothesised theorems. -/
def snapA : MarketSnapshot :=
  { price := 100, price_change_percent := 1, volume := 1000,
    quote_volume := 2000000, high := 110, low := 90, trades := 5 }

/-- Sample inflow record with positive averages. -/
def inflowA : InflowSample :=
  { current_inflow := 50, avg_inflow_5min := 40,
    transactions_per_min := 10, session_boost := 1.5 }

/-- Sample inflow record violating the positive-average invariant. -/
def inflowZ : InflowSample :=
  { current_inflow := 50, avg_inflow_5min := 0,
    transactions_per_min := 10, session_boost := 1.5 }

/-- Model of the numpy global random generator interface used by
src/app.py: reseeding with an explicit seed (np.random.seed(n)), the
state produced by the argumentless entropy reseed (np.random.seed()),
and the three draw functions, each returning a value and the next
state.  The theorems quantify over every such model, so they hold for
any deterministic pseudo-random implementation. -/
structure RandModel (σ : Type) where
  reseed : Nat → σ
  entropySeed : σ
  normal : Rat → Rat → σ → Rat × σ
  uniform : Rat → Rat → σ → Rat × σ
  randint : Int → Int → σ → Int × σ

/-- The per-symbol seed of src/app.py: hash(symbol) mod 10000, with the
process-fixed Python hash supplied as a parameter.  Pythonmod of a
positive modulus is non-negative, matching Int.emod. -/
def pySeed (hashF : String → Int) (symbol : String) : Nat :=
  ((hashF symbol).emod 10000).toNat

/-- The current_prices table of generate_realistic_market_data
(src/app.py lines 175-184), defaulting to 10 for unknown symbols. -/
def basePrice (symbol : String) : Rat :=
  match symbol with
  | "BTC" => 45000 | "ETH" => 2500 | "BNB" => 300 | "XRP" => 0.6
  | "ADA" => 0.5 | "SOL" => 100 | "DOT" => 7 | "DOGE" => 0.1
  | "MATIC" => 1 | "LTC" => 70 | "AVAX" => 40 | "LINK" => 15
  | "ATOM" => 10 | "UNI" => 6 | "XLM" => 0.12 | "ALGO" => 0.18
  | "ETC" => 25 | "BCH" => 240 | "FIL" => 5 | "EOS" => 0.8
  | "SHIB" => 0.000008 | "PEPE" => 0.000001 | "FLOKI" => 0.00002
  | "BONK" => 0.000012 | "WIF" => 0.3 | "MEME" => 0.02 | "TAO" => 400
  | "RNDR" => 8 | "AKT" => 3 | "OCEAN" => 0.6 | "FET" => 0.5
  | "AGIX" => 0.3 | "ARB" => 1.8 | "OP" => 3.5 | "STRK" => 1.6
  | "METIS" => 60 | "IMX" => 2.2
  | _ => 10

/-- The volatility tier of generate_realistic_market_data (src/app.py
lines 189-198), keyed by the reference price magnitude. -/
def tierVolatility (p : Rat) : Rat :=
  if p > 1000 then 0.02
  else if p > 100 then 0.03
  else if p > 10 then 0.05
  else if p > 1 then 0.08
  else 0.15

/-- The pure arithmetic of the synthetic snapshot built by
generate_realistic_market_data (src/app.py lines 204-216) from the
reference price, the tier volatility and the three drawn values. -/
def mkSyntheticSnapshot (base vol pc u : Rat) (tr : Int) : MarketSnapshot :=
  { price := base * (1 + pc / 100)
    price_change_percent := pc
    volume := base * u
    quote_volume := base * u
    high := base * (1 + pc / 100) * (1 + |pc| / 100 + vol / 2)
    low := base * (1 + pc / 100) * (1 - |pc| / 100 - vol / 2)
    trades := tr }

/-- generate_realistic_market_data (src/app.py lines 173-219): reseed
the global generator with hash(symbol) mod 10000, draw the price change
(normal), the volume factor (uniform) and the trade count (randint),
and finish with the argumentless entropy reseed of line 218.  The
incoming generator state is threaded but, because of the reseed, never
read. -/
def generate_realistic_market_data {σ : Type} (G : RandModel σ)
    (hashF : String → Int) (symbol : String) (st : σ) : MarketSnapshot × σ :=
  let base := basePrice symbol
  let vol := tierVolatility base
  let s1 := G.reseed (pySeed hashF symbol)
  let d1 := G.normal 0 (vol * 100) s1
  let d2 := G.uniform 100000 5000000 d1.2
  let d3 := G.randint 1000 50000 d2.2
  (mkSyntheticSnapshot base vol d1.1 d2.1 d3.1, G.entropySeed)

/-- The price-change value drawn by generate_realistic_market_data for
a symbol: the first normal draw after the per-symbol reseed. -/
def priceChangeDraw {σ : Type} (G : RandModel σ) (hashF : String → Int)
    (symbol : String) : Rat :=
  (G.normal 0 (tierVolatility (basePrice symbol) * 100)
    (G.reseed (pySeed hashF symbol))).1

/-- Every reference price in the table, including the default, is
positive. -/
theorem basePrice_pos (symbol : String) : 0 < basePrice symbol := by
  unfold basePrice
  split <;> norm_num

/-- Every volatility tier is positive. -/
theorem tierVolatility_pos (p : Rat) : 0 < tierVolatility p := by
  unfold tierVolatility
  repeat' split
  all_goals norm_num

/-- Invariant of the synthetic snapshot arithmetic: with a positive
reference price, a positive volatility, and a price-change draw whose
magnitude stays below 100 (1 - vol / 2), the snapshot satisfies
high ≥ price ≥ low ≥ 0. -/
theorem mkSyntheticSnapshot_invariant (base vol pc u : Rat) (tr : Int)
    (hb : 0 < base) (hv : 0 < vol) (h : |pc| ≤ 100 * (1 - vol / 2)) :
    (mkSyntheticSnapshot base vol pc u tr).high ≥
        (mkSyntheticSnapshot base vol pc u tr).price ∧
      (mkSyntheticSnapshot base vol pc u tr).price ≥
        (mkSyntheticSnapshot base vol pc u tr).low ∧
      (mkSyntheticSnapshot base vol pc u tr).low ≥ 0 := by
  obtain ⟨h1, h2⟩ := abs_le.mp h
  have habs : 0 ≤ |pc| := abs_nonneg pc
  have hf : 0 ≤ 1 + pc / 100 := by nlinarith
  have hprice : 0 ≤ base * (1 + pc / 100) := mul_nonneg hb.le hf
  have hpad : 0 ≤ |pc| / 100 + vol / 2 := by positivity
  have hlowf : 0 ≤ 1 - |pc| / 100 - vol / 2 := by nlinarith
  refine ⟨?_, ?_, ?_⟩
  · simp only [mkSyntheticSnapshot]
    nlinarith [mul_nonneg hprice hpad]
  · simp only [mkSyntheticSnapshot]
    nlinarith [mul_nonneg hprice hpad]
  · simp only [mkSyntheticSnapshot]
    exact mul_nonneg hprice hlowf

/-- C4: generate_realistic_market_data is reproducible within a process:
for every generator model, every process hash function and every
symbol, two calls from arbitrary (and possibly different) incoming
global generator states return identical snapshots in all fields,
because every draw follows the reseed with hash(symbol) mod 10000. -/
theorem generate_realistic_market_data_reproducible {σ : Type}
    (G : RandModel σ) (hashF : String → Int) (symbol : String) (st1 st2 : σ) :
    (generate_realistic_market_data G hashF symbol st1).1 =
      (generate_realistic_market_data G hashF symbol st2).1 := rfl

/-- C8 counterexample: the claimed invariant fails for a producible
price-change draw.  With a generator whose seeded normal draw returns
-95 (a value an unbounded normal distribution can produce), the
synthetic snapshot for XRP (reference price 0.6, volatility tier 0.15)
has a negative low: 0.6 (1 - 0.95) gives price 0.03 > 0 while the
low factor 1 - 0.95 - 0.075 is negative. -/
theorem synthetic_invariant_counterexample :
    (generate_realistic_market_data
        { reseed := fun n => n, entropySeed := 0,
          normal := fun _ _ s => (-95, s),
          uniform := fun a _ s => (a, s + 1),
          randint := fun a _ s => (a, s + 1) }
        (fun _ => 0) "XRP" 0).1.low < 0 := by
  norm_num [generate_realistic_market_data, mkSyntheticSnapshot, basePrice,
    tierVolatility, pySeed]

/-- C8 (amended): for every symbol and every price-change draw pc with
|pc| ≤ 100 (1 - volatility / 2), the synthetic snapshot satisfies
high ≥ price ≥ low ≥ 0 by construction of the price, high and low
formulas. -/
theorem generate_realistic_market_data_invariant {σ : Type}
    (G : RandModel σ) (hashF : String → Int) (symbol : String) (st : σ)
    (h : |priceChangeDraw G hashF symbol| ≤
      100 * (1 - tierVolatility (basePrice symbol) / 2)) :
    (generate_realistic_market_data G hashF symbol st).1.high ≥
        (generate_realistic_market_data G hashF symbol st).1.price ∧
      (generate_realistic_market_data G hashF symbol st).1.price ≥
        (generate_realistic_market_data G hashF symbol st).1.low ∧
      (generate_realistic_market_data G hashF symbol st).1.low ≥ 0 :=
  mkSyntheticSnapshot_invariant (basePrice symbol)
    (tierVolatility (basePrice symbol)) (priceChangeDraw G hashF symbol)
    (G.uniform 100000 5000000 (G.normal 0 (tierVolatility (basePrice symbol) * 100)
      (G.reseed (pySeed hashF symbol))).2).1
    (G.randint 1000 50000 (G.uniform 100000 5000000
      (G.normal 0 (tierVolatility (basePrice symbol) * 100)
        (G.reseed (pySeed hashF symbol))).2).2).1
    (basePrice_pos symbol) (tierVolatility_pos (basePrice symbol)) h

/-- A concrete generator model with state-sensitive draws, used to
instantiate the hypothesised theorems on explicit inputs. -/
def natRand : RandModel Nat :=
  { reseed := fun n => n
    entropySeed := 1
    normal := fun mu sigma s => (mu + sigma * (s : Rat), s + 1)
    uniform := fun a b s => (a + (b - a) / ((s : Rat) + 2), s + 1)
    randint := fun a _ s => (a, s + 1) }

/-- C8 witness: the amended invariant instantiated for BTC with the
hash function that maps every symbol to 0, under natRand: the seeded
state is 0, so the drawn price change is 0, within the bound. -/
theorem generate_realistic_market_data_invariant_witness :
    (|priceChangeDraw natRand (fun _ => 0) "BTC"| ≤
      100 * (1 - tierVolatility (basePrice "BTC") / 2)) ∧
    ((generate_realistic_market_data natRand (fun _ => 0) "BTC" 0).1.high ≥
        (generate_realistic_market_data natRand (fun _ => 0) "BTC" 0).1.price ∧
      (generate_realistic_market_data natRand (fun _ => 0) "BTC" 0).1.price ≥
        (generate_realistic_market_data natRand (fun _ => 0) "BTC" 0).1.low ∧
      (generate_realistic_market_data natRand (fun _ => 0) "BTC" 0).1.low ≥ 0) :=
  ⟨by norm_num [priceChangeDraw, natRand, basePrice, tierVolatility, pySeed],
    generate_realistic_market_data_invariant natRand (fun _ => 0) "BTC" 0
      (by norm_num [priceChangeDraw, natRand, basePrice, tierVolatility, pySeed])⟩

/-- C7: for valid inputs (positive inflows, non-negative quote volume)
the computed fiat flow score lies in [0, 200] and the computed volume
score lies in [0, 100]. -/
theorem calculate_scores_bounded (symbol : String) (market : MarketSnapshot)
    (inflow : InflowSample) (hc : 0 < inflow.current_inflow)
    (ha : 0 < inflow.avg_inflow_5min) (hq : 0 ≤ market.quote_volume) :
    0 ≤ (calculate_scores_row symbol market inflow).fiat_flow_score ∧
      (calculate_scores_row symbol market inflow).fiat_flow_score ≤ 200 ∧
      0 ≤ (calculate_scores_row symbol market inflow).volume_score ∧
      (calculate_scores_row symbol market inflow).volume_score ≤ 100 := by
  simp only [calculate_scores_row]
  rw [if_pos ha]
  refine ⟨le_min (le_max_right _ _) (by norm_num), min_le_right _ _,
    le_min ?_ (by norm_num), min_le_right _ _⟩
  positivity

/-- C7 witness: the bounds instantiated at a concrete snapshot and
inflow sample satisfying the hypotheses. -/
theorem calculate_scores_bounded_witness :
    (0 < inflowA.current_inflow ∧ 0 < inflowA.avg_inflow_5min ∧
      0 ≤ snapA.quote_volume) ∧
    (0 ≤ (calculate_scores_row "BTC" snapA inflowA).fiat_flow_score ∧
      (calculate_scores_row "BTC" snapA inflowA).fiat_flow_score ≤ 200 ∧
      0 ≤ (calculate_scores_row "BTC" snapA inflowA).volume_score ∧
      (calculate_scores_row "BTC" snapA inflowA).volume_score ≤ 100) :=
  ⟨⟨by norm_num [inflowA], by norm_num [inflowA], by norm_num [snapA]⟩,
    calculate_scores_bounded "BTC" snapA inflowA (by norm_num [inflowA])
      (by norm_num [inflowA]) (by norm_num [snapA])⟩

/-- C9: the trading signal is the five-rule decision table over
(momentumScore, fiatFlowScore, priceChangePercent), first match wins,
with (130,140,3) strong buy, (90,115,0) buy, (50,70,-3) strong sell,
and calculate_scores classifies each record through this table. -/
theorem signal_decision_table :
    (∀ m f p : Rat, classifySignal m f p =
      (if m > 120 ∧ f > 130 ∧ p > 2 then Signal.strongBuy
       else if m > 80 ∧ f > 110 then Signal.buy
       else if m < 60 ∧ f < 80 ∧ p < -2 then Signal.strongSell
       else if m < 80 ∧ f < 90 then Signal.sell
       else Signal.hold)) ∧
    classifySignal 130 140 3 = Signal.strongBuy ∧
    classifySignal 90 115 0 = Signal.buy ∧
    classifySignal 50 70 (-3) = Signal.strongSell ∧
    (∀ (symbol : String) (market : MarketSnapshot) (inflow : InflowSample),
      (calculate_scores_row symbol market inflow).signal =
        classifySignal (calculate_scores_row symbol market inflow).momentum_score
          (calculate_scores_row symbol market inflow).fiat_flow_score
          market.price_change_percent) :=
  ⟨fun _ _ _ => rfl, by decide, by decide, by decide, fun _ _ _ => rfl⟩

/-- C10: when avgInflow5Min is not strictly positive the guard takes the
else branch and the fiat flow score is the default 100; the scoring
computation is total. -/
theorem flow_score_guard (symbol : String) (market : MarketSnapshot)
    (inflow : InflowSample) (h : inflow.avg_inflow_5min ≤ 0) :
    (calculate_scores_row symbol market inflow).fiat_flow_score = 100 := by
  simp only [calculate_scores_row]
  rw [if_neg (not_lt.mpr h)]

/-- C10 witness: the guard instantiated at an inflow record whose
five-minute average is zero. -/
theorem flow_score_guard_witness :
    inflowZ.avg_inflow_5min ≤ 0 ∧
      (calculate_scores_row "BTC" snapA inflowZ).fiat_flow_score = 100 :=
  ⟨by norm_num [inflowZ], flow_score_guard "BTC" snapA inflowZ (by norm_num [inflowZ])⟩

/-- Fields parsed from a Binance 24hr ticker response (src/app.py lines
108-116). -/
structure RawTicker where
  lastPrice : Rat
  priceChangePercent : Rat
  volume : Rat
  quoteVolume : Rat
  highPrice : Rat
  lowPrice : Rat
  count : Int
deriving DecidableEq

/-- Fields parsed from a CoinGecko coin-detail response (src/app.py
lines 154-166). -/
structure CoinDetail where
  currentPrice : Rat
  priceChange24h : Rat
  totalVolume : Rat
  high24h : Rat
  low24h : Rat
deriving DecidableEq

/-- Outcome of one HTTP attempt against a source: an exception raised
by the request, or a response with a status code and the result of
parsing the body (none when parsing raises). -/
inductive SourceOutcome (α : Type) where
  | exn : SourceOutcome α
  | resp (status : Nat) (parsed : Option α) : SourceOutcome α

/-- The external world a fetch cycle runs against: the outcome of the
Binance attempt and of the CoinGecko attempt for each symbol. -/
structure FetchEnv where
  binance : String → SourceOutcome RawTicker
  coingecko : String → SourceOutcome CoinDetail

/-- The binance_symbols table of fetch_market_data (src/app.py lines
85-99). -/
def binanceSymbols (symbol : String) : Option String :=
  match symbol with
  | "BTC" => some "BTCUSDT" | "ETH" => some "ETHUSDT" | "BNB" => some "BNBUSDT"
  | "XRP" => some "XRPUSDT" | "ADA" => some "ADAUSDT" | "SOL" => some "SOLUSDT"
  | "DOT" => some "DOTUSDT" | "DOGE" => some "DOGEUSDT" | "MATIC" => some "MATICUSDT"
  | "LTC" => some "LTCUSDT" | "AVAX" => some "AVAXUSDT" | "LINK" => some "LINKUSDT"
  | "ATOM" => some "ATOMUSDT" | "UNI" => some "UNIUSDT" | "XLM" => some "XLMUSDT"
  | "ALGO" => some "ALGOUSDT" | "ETC" => some "ETCUSDT" | "BCH" => some "BCHUSDT"
  | "FIL" => some "FILUSDT" | "EOS" => some "EOSUSDT" | "SHIB" => some "SHIBUSDT"
  | "PEPE" => some "PEPEUSDT" | "FLOKI" => some "FLOKIUSDT" | "BONK" => some "BONKUSDT"
  | "WIF" => some "WIFUSDT" | "MEME" => some "MEMEUSDT" | "TAO" => some "TAOUSDT"
  | "RNDR" => some "RNDRUSDT" | "AKT" => some "AKTUSDT" | "OCEAN" => some "OCEANUSDT"
  | "FET" => some "FETUSDT" | "AGIX" => some "AGIXUSDT" | "ARB" => some "ARBUSDT"
  | "OP" => some "OPUSDT" | "STRK" => some "STRKUSDT" | "METIS" => some "METISUSDT"
  | "IMX" => some "IMXUSDT"
  | _ => none

/-- The coin_mapping table of fetch_coingecko_data (src/app.py lines
131-145). -/
def coinMapping (symbol : String) : Option String :=
  match symbol with
  | "BTC" => some "bitcoin" | "ETH" => some "ethereum" | "BNB" => some "binancecoin"
  | "XRP" => some "ripple" | "ADA" => some "cardano" | "SOL" => some "solana"
  | "DOT" => some "polkadot" | "DOGE" => some "dogecoin" | "MATIC" => some "matic-network"
  | "LTC" => some "litecoin" | "AVAX" => some "avalanche-2" | "LINK" => some "chainlink"
  | "ATOM" => some "cosmos" | "UNI" => some "uniswap" | "XLM" => some "stellar"
  | "ALGO" => some "algorand" | "ETC" => some "ethereum-classic" | "BCH" => some "bitcoin-cash"
  | "FIL" => some "filecoin" | "EOS" => some "eos" | "SHIB" => some "shiba-inu"
  | "PEPE" => some "pepe" | "FLOKI" => some "floki" | "BONK" => some "bonk"
  | "WIF" => some "dogwifcoin" | "MEME" => some "meme-network" | "TAO" => some "bittensor"
  | "RNDR" => some "render-token" | "AKT" => some "akash-network" | "OCEAN" => some "ocean-protocol"
  | "FET" => some "fetch-ai" | "AGIX" => some "singularitynet" | "ARB" => some "arbitrum"
  | "OP" => some "optimism" | "STRK" => some "starknet" | "METIS" => some "metis-token"
  | "IMX" => some "immutable-x"
  | _ => none

/-- The snapshot dictionary built from a parsed Binance ticker
(src/app.py lines 108-116). -/
def binanceToSnapshot (t : RawTicker) : MarketSnapshot :=
  { price := t.lastPrice
    price_change_percent := t.priceChangePercent
    volume := t.volume
    quote_volume := t.quoteVolume
    high := t.highPrice
    low := t.lowPrice
    trades := t.count }

/-- The snapshot dictionary built from a parsed CoinGecko coin detail
(src/app.py lines 158-166): quote volume duplicates the volume and the
trade count defaults to 0. -/
def coingeckoToSnapshot (d : CoinDetail) : MarketSnapshot :=
  { price := d.currentPrice
    price_change_percent := d.priceChange24h
    volume := d.totalVolume
    quote_volume := d.totalVolume
    high := d.high24h
    low := d.low24h
    trades := 0 }

/-- fetch_coingecko_data (src/app.py lines 128-171): unmapped symbol,
request exception, non-200 status or parse failure all end in the
synthetic fallback; a 200 response that parses is returned as is. -/
def fetch_coingecko_data {σ : Type} (env : FetchEnv) (G : RandModel σ)
    (hashF : String → Int) (symbol : String) (st : σ) : MarketSnapshot × σ :=
  match coinMapping symbol with
  | none => generate_realistic_market_data G hashF symbol st
  | some _ =>
    match env.coingecko symbol with
    | .exn => generate_realistic_market_data G hashF symbol st
    | .resp status parsed =>
      if status = 200 then
        match parsed with
        | some d => (coingeckoToSnapshot d, st)
        | none => generate_realistic_market_data G hashF symbol st
      else generate_realistic_market_data G hashF symbol st

/-- The body of the per-symbol loop of fetch_market_data (src/app.py
lines 82-124): a mapped symbol is tried against Binance; a 200 response
that parses wins; a non-200 status or a missing mapping falls through
to CoinGecko; a request or parse exception is caught by the outer
except and answered with synthetic data. -/
def fetch_symbol_data {σ : Type} (env : FetchEnv) (G : RandModel σ)
    (hashF : String → Int) (symbol : String) (st : σ) : MarketSnapshot × σ :=
  match binanceSymbols symbol with
  | none => fetch_coingecko_data env G hashF symbol st
  | some _ =>
    match env.binance symbol with
    | .exn => generate_realistic_market_data G hashF symbol st
    | .resp status parsed =>
      if status = 200 then
        match parsed with
        | some t => (binanceToSnapshot t, st)
        | none => generate_realistic_market_data G hashF symbol st
      else fetch_coingecko_data env G hashF symbol st

/-- fetch_market_data (src/app.py lines 78-126): one entry per symbol
of the input, threading the global generator state through the loop. -/
def fetch_market_data {σ : Type} (env : FetchEnv) (G : RandModel σ)
    (hashF : String → Int) : List String → σ → List (String × MarketSnapshot) × σ
  | [], st => ([], st)
  | symbol :: rest, st =>
    let r := fetch_symbol_data env G hashF symbol st
    let t := fetch_market_data env G hashF rest r.2
    ((symbol, r.1) :: t.1, t.2)

theorem fetch_market_data_keys {σ : Type} (env : FetchEnv) (G : RandModel σ)
    (hashF : String → Int) :
    ∀ (symbols : List String) (st : σ),
      (fetch_market_data env G hashF symbols st).1.map Prod.fst = symbols := by
  intro symbols
  induction symbols with
  | nil => intro st; rfl
  | cons s rest ih =>
    intro st
    simp only [fetch_market_data, List.map_cons, List.cons.injEq, true_and]
    exact ih _

/-- C1: for every environment of source outcomes (exceptions, non-200
statuses, parse failures, successes in any combination) the fetched
mapping has exactly one snapshot entry per requested symbol: the keys
are exactly the input list, and under a duplicate-free request each
symbol owns exactly one entry.  The pipeline never fails on external
source issues. -/
theorem fetch_market_data_total {σ : Type} (env : FetchEnv) (G : RandModel σ)
    (hashF : String → Int) (symbols : List String) (st : σ)
    (hnd : symbols.Nodup) :
    (fetch_market_data env G hashF symbols st).1.map Prod.fst = symbols ∧
      ∀ s ∈ symbols,
        ((fetch_market_data env G hashF symbols st).1.filter
          (fun p => p.1 == s)).length = 1 := by
  refine ⟨fetch_market_data_keys env G hashF symbols st, fun s hs => ?_⟩
  have hkeys := fetch_market_data_keys env G hashF symbols st
  have hcount : ((fetch_market_data env G hashF symbols st).1.map Prod.fst).count s = 1 := by
    rw [hkeys]
    exact List.count_eq_one_of_mem hnd hs
  rw [List.count_eq_countP, List.countP_map] at hcount
  rw [← List.countP_eq_length_filter]
  exact hcount

/-- A concrete all-failing environment used to instantiate the
hypothesised fetch theorems. -/
def envAllFail : FetchEnv :=
  { binance := fun _ => .exn, coingecko := fun _ => .exn }

/-- C1 witness: totality instantiated on a concrete duplicate-free
request against the all-failing environment. -/
theorem fetch_market_data_total_witness :
    ((["BTC", "ETH", "ZZZ"] : List String).Nodup) ∧
    ((fetch_market_data envAllFail natRand (fun _ => 0) ["BTC", "ETH", "ZZZ"] 0).1.map
        Prod.fst = ["BTC", "ETH", "ZZZ"] ∧
      ∀ s ∈ (["BTC", "ETH", "ZZZ"] : List String),
        ((fetch_market_data envAllFail natRand (fun _ => 0) ["BTC", "ETH", "ZZZ"] 0).1.filter
          (fun p => p.1 == s)).length = 1) :=
  ⟨by decide,
    fetch_market_data_total envAllFail natRand (fun _ => 0) ["BTC", "ETH", "ZZZ"] 0
      (by decide)⟩

/-- The keys of the snapshot dictionary built from a Binance response
(src/app.py lines 108-116). -/
def binanceSnapshotKeys : List String :=
  ["price", "price_change_percent", "volume", "quote_volume", "high", "low", "trades"]

/-- The keys of the snapshot dictionary built from a CoinGecko response
(src/app.py lines 158-166). -/
def coingeckoSnapshotKeys : List String :=
  ["price", "price_change_percent", "volume", "quote_volume", "high", "low", "trades"]

/-- The keys of the synthetic snapshot dictionary (src/app.py lines
208-216). -/
def syntheticSnapshotKeys : List String :=
  ["price", "price_change_percent", "volume", "quote_volume", "high", "low", "trades"]

/-- C2 counterexample: no snapshot built by the fetcher carries an
is_authentic key; the three construction sites produce the same key
set, so live and synthetic snapshots are structurally
indistinguishable, refuting the claimed authenticity marking. -/
theorem no_authenticity_field :
    "is_authentic" ∉ binanceSnapshotKeys ∧
      "is_authentic" ∉ coingeckoSnapshotKeys ∧
      "is_authentic" ∉ syntheticSnapshotKeys ∧
      coingeckoSnapshotKeys = binanceSnapshotKeys ∧
      syntheticSnapshotKeys = binanceSnapshotKeys := by
  refine ⟨?_, ?_, ?_, rfl, rfl⟩ <;> decide

/-- C2 (amended): snapshots carry no authenticity field — all three
construction sites emit the same key set without is_authentic — and a
symbol mapped by neither source resolves to exactly the output of the
deterministic synthesizer. -/
theorem unmatched_symbol_synthesized {σ : Type} (env : FetchEnv)
    (G : RandModel σ) (hashF : String → Int) (symbol : String) (st : σ)
    (hb : binanceSymbols symbol = none) (hc : coinMapping symbol = none) :
    ("is_authentic" ∉ binanceSnapshotKeys ∧
      "is_authentic" ∉ coingeckoSnapshotKeys ∧
      "is_authentic" ∉ syntheticSnapshotKeys) ∧
    fetch_symbol_data env G hashF symbol st =
      generate_realistic_market_data G hashF symbol st := by
  refine ⟨⟨by decide, by decide, by decide⟩, ?_⟩
  unfold fetch_symbol_data fetch_coingecko_data
  rw [hb, hc]

/-- C2 witness: the amended statement instantiated for a symbol mapped
by neither table, against the all-failing environment. -/
theorem unmatched_symbol_synthesized_witness :
    (binanceSymbols "ZZZ" = none ∧ coinMapping "ZZZ" = none) ∧
    (("is_authentic" ∉ binanceSnapshotKeys ∧
        "is_authentic" ∉ coingeckoSnapshotKeys ∧
        "is_authentic" ∉ syntheticSnapshotKeys) ∧
      fetch_symbol_data envAllFail natRand (fun _ => 0) "ZZZ" 0 =
        generate_realistic_market_data natRand (fun _ => 0) "ZZZ" 0) :=
  ⟨⟨rfl, rfl⟩,
    unmatched_symbol_synthesized envAllFail natRand (fun _ => 0) "ZZZ" 0 rfl rfl⟩

/-- The three trading sessions of src/app.py line 53. -/
inductive Session where
  | asia
  | europe
  | ny
deriving DecidableEq

/-- get_current_session (src/app.py lines 70-76): the first of the
contiguous hour windows containing the current UTC hour, defaulting to
NY. -/
def sessionOf (hour : Nat) : Session :=
  if hour < 8 then .asia
  else if hour < 16 then .europe
  else if hour < 24 then .ny
  else .ny

/-- The session_multipliers table of generate_fiat_inflow_data
(src/app.py line 227); every session is present, so the default 1.0 of
the dictionary get is never used. -/
def sessionMultiplier : Session → Rat
  | .asia => 0.8
  | .europe => 1.2
  | .ny => 1.5

/-- Stand-ins for the real-valued functions numpy supplies to
generate_fiat_inflow_data: the constant pi and the sine function. -/
structure MathEnv where
  pi : Rat
  sin : Rat → Rat

/-- The daily trend factor of src/app.py line 248:
sin(hour / 24 x 2 pi) x 0.3 + 1. -/
def trendFactor (M : MathEnv) (hour : Nat) : Rat :=
  M.sin ((hour : Rat) / 24 * 2 * M.pi) * 0.3 + 1

/-- Truncation toward zero, the behaviour of the Python int() cast
applied to a float on line 257. -/
def truncToInt (q : Rat) : Int :=
  if q < 0 then -(⌊-q⌋) else ⌊q⌋

/-- The large_caps list of src/app.py line 231. -/
def largeCaps : List String := ["BTC", "ETH", "BNB", "SOL", "XRP"]

/-- The mid_caps list of src/app.py line 232. -/
def midCaps : List String := ["ADA", "DOT", "MATIC", "LTC", "AVAX", "LINK", "ATOM"]

/-- The base inflow draw of src/app.py lines 236-241, taken from the
generator state as it stands at the top of the loop iteration — before
the per-symbol reseed of lines 244-245. -/
def baseInflowDraw {σ : Type} (G : RandModel σ) (symbol : String) (st : σ) :
    Rat × σ :=
  if symbol ∈ largeCaps then G.uniform 200 800 st
  else if symbol ∈ midCaps then G.uniform 50 300 st
  else G.uniform 10 150 st

/-- The body of the per-symbol loop of generate_fiat_inflow_data
(src/app.py lines 234-261): base inflow drawn from the ambient state,
then the reseed with hash(symbol) mod 10000, the volatility draw, the
sample arithmetic, the transactions draw, and the argumentless entropy
reseed of line 261. -/
def generate_fiat_inflow_for {σ : Type} (G : RandModel σ) (M : MathEnv)
    (hashF : String → Int) (hour : Nat) (boost : Rat) (symbol : String)
    (st : σ) : InflowSample × σ :=
  let d0 := baseInflowDraw G symbol st
  let s1 := G.reseed (pySeed hashF symbol)
  let trend := trendFactor M hour
  let dv := G.uniform 0.6 1.4 s1
  let current := d0.1 * dv.1 * boost * trend
  let avg := d0.1 * boost * trend
  let dt := G.uniform 0.8 1.2 dv.2
  ({ current_inflow := max current 1
     avg_inflow_5min := max avg 1
     transactions_per_min := truncToInt (current * dt.1)
     session_boost := boost }, G.entropySeed)

/-- generate_fiat_inflow_data (src/app.py lines 221-263): the session
boost is computed once from the current hour, then the loop body runs
per symbol with the generator state threaded through. -/
def generate_fiat_inflow_data {σ : Type} (G : RandModel σ) (M : MathEnv)
    (hashF : String → Int) (hour : Nat) :
    List String → σ → List (String × InflowSample) × σ
  | [], st => ([], st)
  | symbol :: rest, st =>
    let r := generate_fiat_inflow_for G M hashF hour
      (sessionMultiplier (sessionOf hour)) symbol st
    let t := generate_fiat_inflow_data G M hashF hour rest r.2
    ((symbol, r.1) :: t.1, t.2)

/-- Concrete stand-in math environment for instantiations: sine is the
zero function, so the trend factor is exactly 1. -/
def mathZero : MathEnv := { pi := 3, sin := fun _ => 0 }

/-- C5: the claim fails on the code.  The base inflow is drawn from the
ambient generator state before the reseed with hash(symbol) mod 10000
(src/app.py lines 236-245), so with the symbol, the UTC hour and the
session all fixed, two calls from different ambient states return
different InflowSample values: the five-minute averages differ. -/
theorem inflow_not_reproducible :
    (generate_fiat_inflow_for natRand mathZero (fun _ => 7) 0
        (sessionMultiplier (sessionOf 0)) "BTC" 0).1 ≠
      (generate_fiat_inflow_for natRand mathZero (fun _ => 7) 0
        (sessionMultiplier (sessionOf 0)) "BTC" 1).1 := by
  intro h
  have h2 := congrArg InflowSample.avg_inflow_5min h
  norm_num [generate_fiat_inflow_for, baseInflowDraw, largeCaps, midCaps,
    List.mem_cons, List.mem_singleton, trendFactor, sessionMultiplier, sessionOf,
    pySeed, mathZero, natRand, max_def] at h2

/-- Modelled from the spec: the InflowEstimator of specification
section 4.4 with the price-correlated inflow multiplier the claim
describes — after the per-symbol reseed, draw the base inflow by tier,
the volatility uniform(0.6, 1.4), then a multiplier uniform(1.2, 2.0)
when the price change exceeds 2, uniform(0.5, 1.2) when it is below
-2, uniform(0.8, 1.5) otherwise, the multiplier entering the current
inflow.  This definition exists only for comparison with the code. -/
def estimateSpec {σ : Type} (G : RandModel σ) (M : MathEnv)
    (hashF : String → Int) (hour : Nat) (boost : Rat) (symbol : String)
    (pc : Rat) (st : σ) : InflowSample × σ :=
  let s1 := G.reseed (pySeed hashF symbol)
  let d0 := if symbol ∈ largeCaps then G.uniform 200 800 s1
            else if symbol ∈ midCaps then G.uniform 50 300 s1
            else G.uniform 10 150 s1
  let trend := trendFactor M hour
  let dv := G.uniform 0.6 1.4 d0.2
  let dm := if pc > 2 then G.uniform 1.2 2 dv.2
            else if pc < -2 then G.uniform 0.5 1.2 dv.2
            else G.uniform 0.8 1.5 dv.2
  let current := d0.1 * dv.1 * dm.1 * boost * trend
  let avg := d0.1 * boost * trend
  let dt := G.uniform 0.8 1.2 dm.2
  ({ current_inflow := max current 1
     avg_inflow_5min := max avg 1
     transactions_per_min := truncToInt (current * dt.1)
     session_boost := boost }, st)

/-- C6 counterexample: at a concrete input with price change 3, the
sample computed by the code differs from the sample computed with the
price-correlated multiplier of the claim: the code draws no such
multiplier and ignores the snapshot entirely. -/
theorem inflow_price_correlated_counterexample :
    (generate_fiat_inflow_for natRand mathZero (fun _ => 7) 0 0.8 "BTC" 0).1 ≠
      (estimateSpec natRand mathZero (fun _ => 7) 0 0.8 "BTC" 3 0).1 := by
  intro h
  have h2 := congrArg InflowSample.current_inflow h
  norm_num [estimateSpec, generate_fiat_inflow_for, baseInflowDraw, largeCaps,
    midCaps, List.mem_cons, List.mem_singleton, trendFactor, pySeed, mathZero,
    natRand, max_def, show Int.toNat 7 = 7 from rfl] at h2

/-- C6 (amended): the current-sample computation of the code is not
correlated with price movement: generate_fiat_inflow_data never reads a
snapshot, draws no price-conditioned multiplier, and the current inflow
is exactly max(base x volatility x sessionBoost x trendFactor, 1) with
volatility the single uniform(0.6, 1.4) draw after the reseed; the
five-minute average carries no volatility draw at all. -/
theorem inflow_ignores_price {σ : Type} (G : RandModel σ) (M : MathEnv)
    (hashF : String → Int) (hour : Nat) (boost : Rat) (symbol : String)
    (st : σ) :
    (generate_fiat_inflow_for G M hashF hour boost symbol st).1.current_inflow =
        max ((baseInflowDraw G symbol st).1 *
          (G.uniform 0.6 1.4 (G.reseed (pySeed hashF symbol))).1 * boost *
          trendFactor M hour) 1 ∧
      (generate_fiat_inflow_for G M hashF hour boost symbol st).1.avg_inflow_5min =
        max ((baseInflowDraw G symbol st).1 * boost * trendFactor M hour) 1 :=
  ⟨rfl, rfl⟩

/-- The discrete inflow level of specification section 4.6. -/
inductive InflowLevel where
  | veryHigh
  | high
  | medium
  | low
deriving DecidableEq

/-- Modelled from the spec: the sort order of the RankAggregator
(specification section 4.6, absent from src/): fiat flow score
descending, ties broken by symbol lexical order. -/
def flowBefore (a b : ScoreRecord) : Prop :=
  b.fiat_flow_score < a.fiat_flow_score ∨
    (a.fiat_flow_score = b.fiat_flow_score ∧ a.symbol ≤ b.symbol)

instance (a b : ScoreRecord) : Decidable (flowBefore a b) :=
  inferInstanceAs (Decidable (_ ∨ _))

/-- Modelled from the spec: insertion into a list sorted by
flowBefore. -/
def insertByFlow (a : ScoreRecord) : List ScoreRecord → List ScoreRecord
  | [] => [a]
  | b :: rest => if flowBefore a b then a :: b :: rest else b :: insertByFlow a rest

/-- Modelled from the spec: sorting by flow score descending with
lexical tie break. -/
def sortByFlow : List ScoreRecord → List ScoreRecord
  | [] => []
  | a :: rest => insertByFlow a (sortByFlow rest)

/-- Modelled from the spec: the rank-gated level table of section 4.6,
first matching rule wins. -/
def levelFor (rank : Nat) (score : Rat) : InflowLevel :=
  if rank ≤ 3 ∧ score > 150 then .veryHigh
  else if rank ≤ 8 ∧ score > 120 then .high
  else if score > 100 then .medium
  else .low

/-- Modelled from the spec: the RankAggregator — sort, assign 1-based
ranks by position, and annotate each record with its level. -/
def rankRecords (records : List ScoreRecord) :
    List (ScoreRecord × Nat × InflowLevel) :=
  (sortByFlow records).enum.map
    (fun p => (p.2, p.1 + 1, levelFor (p.1 + 1) p.2.fiat_flow_score))

theorem flowBefore_total (a b : ScoreRecord) : flowBefore a b ∨ flowBefore b a := by
  unfold flowBefore
  rcases lt_trichotomy a.fiat_flow_score b.fiat_flow_score with h | h | h
  · right; left; exact h
  · rcases le_total a.symbol b.symbol with hs | hs
    · left; right; exact ⟨h, hs⟩
    · right; right; exact ⟨h.symm, hs⟩
  · left; left; exact h

theorem flowBefore_trans (a b c : ScoreRecord) (h1 : flowBefore a b)
    (h2 : flowBefore b c) : flowBefore a c := by
  unfold flowBefore at h1 h2 ⊢
  rcases h1 with h1 | ⟨e1, s1⟩
  · rcases h2 with h2 | ⟨e2, s2⟩
    · left; exact h2.trans h1
    · left; rw [← e2]; exact h1
  · rcases h2 with h2 | ⟨e2, s2⟩
    · left; rw [e1]; exact h2
    · right; exact ⟨e1.trans e2, s1.trans s2⟩

theorem insertByFlow_eq (a b : ScoreRecord) (rest : List ScoreRecord) :
    insertByFlow a (b :: rest) =
      if flowBefore a b then a :: b :: rest else b :: insertByFlow a rest := rfl

theorem mem_insertByFlow {x a : ScoreRecord} :
    ∀ {l : List ScoreRecord}, x ∈ insertByFlow a l → x = a ∨ x ∈ l := by
  intro l
  induction l with
  | nil =>
    intro h
    left
    simpa [insertByFlow] using h
  | cons b rest ih =>
    intro h
    rw [insertByFlow_eq] at h
    by_cases hc : flowBefore a b
    · rw [if_pos hc] at h
      rcases List.mem_cons.mp h with rfl | h2
      · exact Or.inl rfl
      · exact Or.inr h2
    · rw [if_neg hc] at h
      rcases List.mem_cons.mp h with rfl | h2
      · exact Or.inr (List.mem_cons_self _ _)
      · rcases ih h2 with rfl | h3
        · exact Or.inl rfl
        · exact Or.inr (List.mem_cons_of_mem _ h3)

theorem pairwise_insertByFlow {a : ScoreRecord} :
    ∀ {l : List ScoreRecord}, l.Pairwise flowBefore →
      (insertByFlow a l).Pairwise flowBefore := by
  intro l
  induction l with
  | nil => intro _; exact List.pairwise_singleton _ _
  | cons b rest ih =>
    intro hp
    rw [List.pairwise_cons] at hp
    obtain ⟨hb, hrest⟩ := hp
    rw [insertByFlow_eq]
    by_cases hc : flowBefore a b
    · rw [if_pos hc, List.pairwise_cons]
      refine ⟨?_, List.pairwise_cons.mpr ⟨hb, hrest⟩⟩
      intro x hx
      rcases List.mem_cons.mp hx with rfl | hx2
      · exact hc
      · exact flowBefore_trans a b x hc (hb x hx2)
    · rw [if_neg hc, List.pairwise_cons]
      refine ⟨?_, ih hrest⟩
      intro x hx
      rcases mem_insertByFlow hx with rfl | hx2
      · exact (flowBefore_total x b).resolve_left hc
      · exact hb x hx2

theorem perm_insertByFlow (a : ScoreRecord) :
    ∀ l : List ScoreRecord, (insertByFlow a l).Perm (a :: l) := by
  intro l
  induction l with
  | nil => exact List.Perm.refl _
  | cons b rest ih =>
    rw [insertByFlow_eq]
    by_cases hc : flowBefore a b
    · rw [if_pos hc]
    · rw [if_neg hc]
      exact (ih.cons b).trans (List.Perm.swap a b rest)

theorem sortByFlow_perm : ∀ l : List ScoreRecord, (sortByFlow l).Perm l := by
  intro l
  induction l with
  | nil => exact List.Perm.refl _
  | cons a rest ih =>
    exact (perm_insertByFlow a (sortByFlow rest)).trans (ih.cons a)

theorem sortByFlow_pairwise : ∀ l : List ScoreRecord,
    (sortByFlow l).Pairwise flowBefore := by
  intro l
  induction l with
  | nil => exact List.Pairwise.nil
  | cons a rest ih => exact pairwise_insertByFlow ih

/-- A score record carrying only a symbol and a flow score, the fields
the RankAggregator reads. -/
def mkRec (s : String) (f : Rat) : ScoreRecord :=
  { symbol := s, fiat_flow_score := f, momentum_score := 0, volume_score := 0,
    combined_score := 0, price_change_percent := 0, price := 0, volume := 0,
    signal := .hold }

/-- The ten-record example of the claim: flow scores 160, 155, 151,
150, 140, 130, 120, 110, 100, 90. -/
def exampleRecords : List ScoreRecord :=
  [mkRec "A" 160, mkRec "B" 155, mkRec "C" 151, mkRec "D" 150,
   mkRec "E" 140, mkRec "F" 130, mkRec "G" 120, mkRec "H" 110,
   mkRec "I" 100, mkRec "J" 90]

/-- C3: the RankAggregator (modelled from the spec, absent from src/)
sorts by flow score descending with lexical tie break (the output is a
permutation of the input, pairwise in the sort order), annotates
1-based ranks, assigns levels by the first-matching rank-gated rule,
and on the ten-record example the first three records are VeryHigh
while the fourth (score 150, rank 4) is High, not VeryHigh. -/
theorem rank_aggregator_spec :
    (∀ records : List ScoreRecord, (sortByFlow records).Perm records) ∧
    (∀ records : List ScoreRecord, (sortByFlow records).Pairwise flowBefore) ∧
    (∀ (records : List ScoreRecord) (e : ScoreRecord × Nat × InflowLevel),
      e ∈ rankRecords records → e.2.2 = levelFor e.2.1 e.1.fiat_flow_score) ∧
    (rankRecords exampleRecords).map (fun e => (e.2.1, e.2.2)) =
      [(1, InflowLevel.veryHigh), (2, InflowLevel.veryHigh),
       (3, InflowLevel.veryHigh), (4, InflowLevel.high), (5, InflowLevel.high),
       (6, InflowLevel.high), (7, InflowLevel.medium), (8, InflowLevel.medium),
       (9, InflowLevel.low), (10, InflowLevel.low)] := by
  refine ⟨sortByFlow_perm, sortByFlow_pairwise, ?_, by decide⟩
  intro records e he
  simp only [rankRecords, List.mem_map] at he
  obtain ⟨p, hp, rfl⟩ := he
  rfl

/-- C3 witness: the level rule instantiated at the head entry of the
ranked example. -/
theorem rank_aggregator_spec_witness :
    ((mkRec "A" 160, 1, InflowLevel.veryHigh) ∈ rankRecords exampleRecords) ∧
      (mkRec "A" 160, 1, InflowLevel.veryHigh).2.2 =
        levelFor (mkRec "A" 160, 1, InflowLevel.veryHigh).2.1
          (mkRec "A" 160, 1, InflowLevel.veryHigh).1.fiat_flow_score :=
  ⟨by decide,
    rank_aggregator_spec.2.2.1 exampleRecords
      (mkRec "A" 160, 1, InflowLevel.veryHigh) (by decide)⟩
